import Mathlib

/-!
Verification of the page-extraction core of the `datumprikker` crate
(`src/event_overview_page.rs`).

The extractor consumes a parsed markup document (the `select` crate's
`Document`) and walks it through five lookups, producing an `Event` or a
typed `ParsePageError`.  We embed the document as a tree of elements:
the `select` predicates used by the source (`Name`, `Attr`, `Class`, `And`)
match only element nodes, so text and comment nodes are irrelevant to every
query the extractor performs and are omitted from the model.
`document.find(p)` enumerates all nodes of the document in document order
(preorder); `node.find(p)` enumerates the node's descendants in the same
order; `.next()` takes the first match; `node.attr(k)` returns the value of
the first attribute named `k`.

Timestamps model chrono: `DateTime<FixedOffset>` stores the instant
(seconds since the Unix epoch plus subsecond nanoseconds, i.e. the naive
UTC date-time) together with the offset; `with_timezone(&Utc)` keeps the
instant and drops the offset.  `DateTime::parse_from_rfc3339` is embedded
as a character-level parser of the strict RFC 3339 grammar accepted by
chrono: `YYYY-MM-DD` then `T`/`t`/space, `hh:mm:ss`, an optional fraction
introduced by `.` (first nine digits significant), and an offset `Z`/`z`
or `±hh:mm` (minutes 00-59, total magnitude below 24 hours); field
validity follows
chrono's `NaiveDate::from_ymd_opt` / `NaiveTime::from_hms_nano_opt`
including the leap-second convention (second 60 is stored as second 59
with the nanosecond field raised by 10^9, so it denotes the same
timestamp as second 59).  ASCII whitespace stands in for Unicode
whitespace in the `Class` predicate's `split_whitespace`.
-/

namespace Datumprikker

mutual
/-- An element node: tag name, attribute list, children.  `ElemList` is an
inlined list so that recursion over the tree stays structural. -/
inductive Elem : Type where
  | mk (name : String) (attrs : List (String × String)) (children : ElemList)
/-- A list of sibling elements. -/
inductive ElemList : Type where
  | nil : ElemList
  | cons (e : Elem) (es : ElemList) : ElemList
end

def Elem.name : Elem → String
  | .mk n _ _ => n

def Elem.attrsOf : Elem → List (String × String)
  | .mk _ a _ => a

def Elem.children : Elem → ElemList
  | .mk _ _ c => c

/-- `node.attr(key)` of the `select` crate: value of the first attribute
with the given name, if any. -/
def Elem.attr (e : Elem) (key : String) : Option String :=
  (e.attrsOf.find? (fun p => p.1 == key)).map (fun p => p.2)

/-- All nodes of a forest in document order (preorder): each element is
listed before its descendants, siblings left to right. -/
def preorderList : ElemList → List Elem
  | .nil => []
  | .cons (.mk n a cs) es => .mk n a cs :: (preorderList cs ++ preorderList es)

/-- A parsed document: the forest of top-level nodes (`select`'s
`Document` stores every node in document order; the queries below only
depend on that order). -/
structure Document : Type where
  roots : ElemList

/-- `document.find(p)` of the `select` crate, materialized as the list of
all matches in document order (`.next()` is `.head?`). -/
def Document.find (d : Document) (p : Elem → Bool) : List Elem :=
  (preorderList d.roots).filter p

/-- `node.find(p)`: all descendants of the node matching `p`, in document
order. -/
def Elem.findDesc (e : Elem) (p : Elem → Bool) : List Elem :=
  (preorderList e.children).filter p

namespace Select

/-- `select::predicate::Name(t)`: element has tag name `t`. -/
def Name (t : String) : Elem → Bool := fun e => e.name == t

/-- `select::predicate::Attr(k, v)`: element has attribute `k` with value
exactly `v`. -/
def Attr (k v : String) : Elem → Bool := fun e => e.attr k == some v

/-- Whitespace splitting of a class attribute value
(`str::split_whitespace`, restricted to ASCII whitespace). -/
def splitWs : List Char → List Char → List String
  | [], acc => if acc.isEmpty then [] else [String.mk acc.reverse]
  | c :: rest, acc =>
    if c.isWhitespace then
      if acc.isEmpty then splitWs rest []
      else String.mk acc.reverse :: splitWs rest []
    else splitWs rest (c :: acc)

/-- `select::predicate::Class(c)`: the element's `class` attribute,
split on whitespace, contains `c`. -/
def Class (c : String) : Elem → Bool := fun e =>
  match e.attr "class" with
  | some v => (splitWs v.data []).contains c
  | none => false

/-- `select::predicate::And(p, q)`. -/
def And (p q : Elem → Bool) : Elem → Bool := fun e => p e && q e

end Select

/-! ### chrono date-time model -/

/-- chrono `DateTime<FixedOffset>`: the instant as naive-UTC seconds since
the Unix epoch plus subsecond nanoseconds, and the fixed offset. -/
structure DateTimeFixed : Type where
  secs : Int
  nanos : Nat
  offsetSecs : Int
deriving DecidableEq, Repr

/-- chrono `DateTime<Utc>`. -/
structure DateTimeUtc : Type where
  secs : Int
  nanos : Nat
deriving DecidableEq, Repr

/-- `dt.with_timezone(&Utc)`: same instant, UTC offset. -/
def with_timezone_utc (d : DateTimeFixed) : DateTimeUtc :=
  { secs := d.secs, nanos := d.nanos }

/-- The absolute instant of a `DateTime<FixedOffset>` (chrono
`timestamp()` and `timestamp_subsec_nanos()`). -/
def DateTimeFixed.instant (d : DateTimeFixed) : Int × Nat := (d.secs, d.nanos)

/-- The absolute instant of a `DateTime<Utc>`. -/
def DateTimeUtc.instant (d : DateTimeUtc) : Int × Nat := (d.secs, d.nanos)

def digitVal (c : Char) : Option Nat :=
  if c.isDigit then some (c.toNat - 48) else none

def read2 : List Char → Option (Nat × List Char)
  | c1 :: c2 :: rest => do
    let d1 ← digitVal c1
    let d2 ← digitVal c2
    some (d1 * 10 + d2, rest)
  | _ => none

def read4 : List Char → Option (Nat × List Char)
  | c1 :: c2 :: c3 :: c4 :: rest => do
    let d1 ← digitVal c1
    let d2 ← digitVal c2
    let d3 ← digitVal c3
    let d4 ← digitVal c4
    some (((d1 * 10 + d2) * 10 + d3) * 10 + d4, rest)
  | _ => none

def expectChar (c : Char) : List Char → Option (List Char)
  | x :: rest => if x == c then some rest else none
  | [] => none

def takeDigits : List Char → List Nat × List Char
  | [] => ([], [])
  | c :: rest =>
    match digitVal c with
    | some d =>
      let (ds, r) := takeDigits rest
      (d :: ds, r)
    | none => ([], c :: rest)

/-- Nanoseconds denoted by the digits of a fraction: the first nine digits
are significant, shorter fractions are scaled up. -/
def nanoOfDigits (ds : List Nat) : Nat :=
  (ds.take 9).foldl (fun a d => a * 10 + d) 0 * 10 ^ (9 - min ds.length 9)

/-- Optional fractional seconds: `.` followed by at least one digit, or
nothing. -/
def readFraction : List Char → Option (Nat × List Char)
  | '.' :: rest =>
    let (ds, r) := takeDigits rest
    if ds.isEmpty then none else some (nanoOfDigits ds, r)
  | cs => some (0, cs)

/-- Numeric timezone offset in seconds: `Z`/`z`, or `±hh:mm` with a
minutes field of at most 59 (chrono's offset scanner rejects minute
values of 60 or more as out of range; the overall magnitude bound below
24 hours is checked by the caller, as `FixedOffset::east_opt` does). -/
def readOffset : List Char → Option (Int × List Char)
  | 'Z' :: rest => some (0, rest)
  | 'z' :: rest => some (0, rest)
  | '+' :: rest => do
    let (hh, r) ← read2 rest
    let r ← expectChar ':' r
    let (mm, r) ← read2 r
    if mm ≤ 59 then some ((hh * 3600 + mm * 60 : Nat), r) else none
  | '-' :: rest => do
    let (hh, r) ← read2 rest
    let r ← expectChar ':' r
    let (mm, r) ← read2 r
    if mm ≤ 59 then some (-((hh * 3600 + mm * 60 : Nat) : Int), r) else none
  | _ => none

def isLeapYear (y : Int) : Bool :=
  y % 4 == 0 && (y % 100 != 0 || y % 400 == 0)

def daysInMonth (y : Int) (m : Nat) : Nat :=
  match m with
  | 1 => 31
  | 2 => if isLeapYear y then 29 else 28
  | 3 => 31
  | 4 => 30
  | 5 => 31
  | 6 => 30
  | 7 => 31
  | 8 => 31
  | 9 => 30
  | 10 => 31
  | 11 => 30
  | 12 => 31
  | _ => 0

/-- Days from the Unix epoch to the given proleptic-Gregorian civil date
(Howard Hinnant's `days_from_civil`, as used by chrono's day arithmetic). -/
def daysFromCivil (y : Int) (m d : Nat) : Int :=
  let y2 : Int := if m ≤ 2 then y - 1 else y
  let era : Int := (if 0 ≤ y2 then y2 else y2 - 399) / 400
  let yoe : Int := y2 - era * 400
  let mp : Int := ((m : Int) + 9) % 12
  let doy : Int := (153 * mp + 2) / 5 + (d : Int) - 1
  let doe : Int := yoe * 365 + yoe / 4 - yoe / 100 + doy
  era * 146097 + doe - 719468

/-- chrono `DateTime::parse_from_rfc3339`: strict RFC 3339 date-time with
offset.  Returns the parsed instant and offset, or `none` on any syntax or
range error (chrono's `ParseError`, whose payload the extractor discards). -/
def parse_from_rfc3339 (s : String) : Option DateTimeFixed := do
  let cs := s.data
  let (y, cs) ← read4 cs
  let cs ← expectChar '-' cs
  let (mo, cs) ← read2 cs
  let cs ← expectChar '-' cs
  let (da, cs) ← read2 cs
  let cs ← (match cs with
            | c :: rest => if c == 'T' || c == 't' || c == ' ' then some rest else none
            | [] => none)
  let (ho, cs) ← read2 cs
  let cs ← expectChar ':' cs
  let (mi, cs) ← read2 cs
  let cs ← expectChar ':' cs
  let (se, cs) ← read2 cs
  let (na, cs) ← readFraction cs
  let (off, cs) ← readOffset cs
  if cs.isEmpty
     && 1 ≤ mo && mo ≤ 12 && 1 ≤ da && da ≤ daysInMonth (Int.ofNat y) mo
     && ho ≤ 23 && mi ≤ 59 && se ≤ 60 && off.natAbs < 86400 then
    let se2 : Nat := if se == 60 then 59 else se
    let na2 : Nat := if se == 60 then na + 1000000000 else na
    let localSecs : Int :=
      daysFromCivil (Int.ofNat y) mo da * 86400 + ((ho * 3600 + mi * 60 + se2 : Nat) : Int)
    some { secs := localSecs - off, nanos := na2, offsetSecs := off }
  else
    none

/-! ### Data model of the extractor (`src/event.rs` as used by the
extractor and its tests: two plain records) -/

/-- `DateRange { start, end }`; the source field `end` is a Lean keyword
and is rendered `end_`. -/
structure DateRange : Type where
  start : DateTimeUtc
  end_ : DateTimeUtc
deriving DecidableEq, Repr

/-- `Event` as constructed by `parse_page`. -/
structure Event : Type where
  canonical_url : String
  title : String
  final_date : Option DateRange
  open_registration_link : Option String
deriving DecidableEq, Repr

/-- `ParsePageError` of `event_overview_page.rs`. -/
inductive ParsePageError : Type where
  | NonExistingEvent
  | UnexpectedHtml
  | DateParseError
deriving DecidableEq, Repr

/-! ### The extractor -/

/-- `parse_page_id`: first `html` element's `id` attribute; a missing
element or attribute is `UnexpectedHtml`. -/
def parse_page_id (d : Document) : Except ParsePageError String :=
  match (d.find (Select.Name "html")).head? with
  | none => .error ParsePageError.UnexpectedHtml
  | some root =>
    match root.attr "id" with
    | none => .error ParsePageError.UnexpectedHtml
    | some i => .ok i

/-- `parse_canonical_url`: `href` of the first `link` element whose `rel`
attribute is `canonical`. -/
def parse_canonical_url (d : Document) : Except ParsePageError String :=
  match (d.find (Select.And (Select.Name "link") (Select.Attr "rel" "canonical"))).head? with
  | none => .error ParsePageError.UnexpectedHtml
  | some lk =>
    match lk.attr "href" with
    | none => .error ParsePageError.UnexpectedHtml
    | some href => .ok href

/-- `parse_page_title`: `data-event-title` of the first `article`
element. -/
def parse_page_title (d : Document) : Except ParsePageError String :=
  match (d.find (Select.Name "article")).head? with
  | none => .error ParsePageError.UnexpectedHtml
  | some art =>
    match art.attr "data-event-title" with
    | none => .error ParsePageError.UnexpectedHtml
    | some t => .ok t

/-- `parse_page_final_date`: optional.  If no element has id
`final_summary` the result is `Ok(None)`; otherwise the first `date`-class
descendant must carry `data-startdate` and `data-enddate`, both parsed as
RFC 3339 and converted to UTC. -/
def parse_page_final_date (d : Document) : Except ParsePageError (Option DateRange) :=
  match (d.find (Select.Attr "id" "final_summary")).head? with
  | none => .ok none
  | some final_summary =>
    match final_summary.findDesc (Select.Class "date") |>.head? with
    | none => .error ParsePageError.UnexpectedHtml
    | some final_date =>
      match final_date.attr "data-startdate" with
      | none => .error ParsePageError.UnexpectedHtml
      | some start_text =>
        match final_date.attr "data-enddate" with
        | none => .error ParsePageError.UnexpectedHtml
        | some end_text =>
          match parse_from_rfc3339 start_text with
          | none => .error ParsePageError.DateParseError
          | some s =>
            match parse_from_rfc3339 end_text with
            | none => .error ParsePageError.DateParseError
            | some e =>
              .ok (some { start := with_timezone_utc s, end_ := with_timezone_utc e })

/-- `parse_page_open_registration_link`: `data-openregistration-link` of
the first `article` element; the empty string is normalized to `None`. -/
def parse_page_open_registration_link (d : Document) :
    Except ParsePageError (Option String) :=
  match (d.find (Select.Name "article")).head? with
  | none => .error ParsePageError.UnexpectedHtml
  | some art =>
    match art.attr "data-openregistration-link" with
    | none => .error ParsePageError.UnexpectedHtml
    | some link => if link.isEmpty then .ok none else .ok (some link)

/-- `parse_page`: the five lookups in source order, each `?` short-circuit
rendered as a match on the step's result. -/
def parse_page (d : Document) : Except ParsePageError Event :=
  match parse_page_id d with
  | .error e => .error e
  | .ok page_id =>
    if page_id = "page_home_index" then
      .error ParsePageError.NonExistingEvent
    else
      match parse_canonical_url d with
      | .error e => .error e
      | .ok canonical_url =>
        match parse_page_title d with
        | .error e => .error e
        | .ok title =>
          match parse_page_final_date d with
          | .error e => .error e
          | .ok final_date =>
            match parse_page_open_registration_link d with
            | .error e => .error e
            | .ok link =>
              .ok { canonical_url := canonical_url, title := title,
                    final_date := final_date, open_registration_link := link }

/-! ### Concrete documents used to instantiate the theorems -/

/-- A canonical-link element with the given target. -/
def canonicalAt (url : String) : Elem :=
  .mk "link" [("rel", "canonical"), ("href", url)] .nil

/-- An article element with title and registration-link attributes. -/
def artAt (t l : String) : Elem :=
  .mk "article" [("data-event-title", t), ("data-openregistration-link", l)] .nil

/-- An article element carrying only the title attribute. -/
def artNoReg : Elem := .mk "article" [("data-event-title", "test")] .nil

/-- A `date`-class element with start and end attributes. -/
def dateElem (st en : String) : Elem :=
  .mk "span" [("class", "date"), ("data-startdate", st), ("data-enddate", en)] .nil

/-- A final-summary section wrapping one date element. -/
def finalSummaryAt (st en : String) : Elem :=
  .mk "div" [("id", "final_summary")] (.cons (dateElem st en) .nil)

/-- An event page: html root with id `page_event_overzicht` over the given
children. -/
def htmlDoc (body : ElemList) : Document :=
  ⟨.cons (.mk "html" [("id", "page_event_overzicht")] body) .nil⟩

def exampleUrl : String := "http://datumprikker.nl/afspraak/overzicht/mu2edbyv3bfayubtm"

/-- Well-formed page whose article lacks the registration-link attribute. -/
def docMissingRegAttr : Document :=
  htmlDoc (.cons (canonicalAt exampleUrl) (.cons artNoReg .nil))

/-- Well-formed page whose registration-link attribute is the empty string. -/
def docEmptyRegAttr : Document :=
  htmlDoc (.cons (canonicalAt exampleUrl) (.cons (artAt "test" "") .nil))

/-- Well-formed page, no final-summary section, non-empty registration link. -/
def docNoFinal : Document :=
  htmlDoc (.cons (canonicalAt exampleUrl) (.cons (artAt "test" "https://datumprikker.nl/r1") .nil))

/-- Well-formed page with a finalized date range given with a +02:00 offset
start and a UTC end. -/
def docFinal : Document :=
  htmlDoc (.cons (canonicalAt exampleUrl)
    (.cons (artAt "test" "https://datumprikker.nl/r1")
      (.cons (finalSummaryAt "2022-06-03T19:00:00+02:00" "2022-06-03T21:00:00Z") .nil)))

/-- Well-formed page whose end date is strictly earlier than its start date. -/
def docRev : Document :=
  htmlDoc (.cons (canonicalAt exampleUrl)
    (.cons (artAt "test" "https://datumprikker.nl/r1")
      (.cons (finalSummaryAt "2022-06-03T21:00:00Z" "2022-06-03T17:00:00Z") .nil)))

/-- Well-formed page whose start-date attribute is not RFC 3339. -/
def docBadDate : Document :=
  htmlDoc (.cons (canonicalAt exampleUrl)
    (.cons (artAt "test" "https://datumprikker.nl/r1")
      (.cons (finalSummaryAt "03-06-2022" "2022-06-03T21:00:00Z") .nil)))

/-- Document with a complete final-summary section carrying unparseable
dates, but no html root element at all. -/
def docNoHtml : Document := ⟨.cons (finalSummaryAt "bad" "alsobad") .nil⟩

/-- The site's placeholder/home page: root id `page_home_index`, nothing
else. -/
def docHome : Document := ⟨.cons (.mk "html" [("id", "page_home_index")] .nil) .nil⟩

/-- A final-summary section with two date-class elements; the second one
carries garbage. -/
def finalSummaryDup : Elem :=
  .mk "div" [("id", "final_summary")]
    (.cons (dateElem "2022-06-03T17:00:00Z" "2022-06-03T21:00:00Z")
      (.cons (dateElem "x" "y") .nil))

/-- Document with duplicated canonical links, articles and date elements. -/
def docDup : Document :=
  htmlDoc (.cons (canonicalAt "http://first")
    (.cons (canonicalAt "http://second")
      (.cons (artAt "t1" "")
        (.cons (artAt "t2" "https://l2")
          (.cons finalSummaryDup .nil)))))

/-! ### Shared inversion and short-circuit lemmas about `parse_page` -/

theorem parse_page_id_error {d : Document} {e : ParsePageError}
    (h : parse_page_id d = .error e) : e = ParsePageError.UnexpectedHtml := by
  unfold parse_page_id at h
  split at h
  · simp_all
  · split at h <;> simp_all

theorem parse_canonical_url_error {d : Document} {e : ParsePageError}
    (h : parse_canonical_url d = .error e) : e = ParsePageError.UnexpectedHtml := by
  unfold parse_canonical_url at h
  split at h
  · simp_all
  · split at h <;> simp_all

theorem parse_page_title_error {d : Document} {e : ParsePageError}
    (h : parse_page_title d = .error e) : e = ParsePageError.UnexpectedHtml := by
  unfold parse_page_title at h
  split at h
  · simp_all
  · split at h <;> simp_all

theorem parse_page_open_registration_link_error {d : Document} {e : ParsePageError}
    (h : parse_page_open_registration_link d = .error e) :
    e = ParsePageError.UnexpectedHtml := by
  unfold parse_page_open_registration_link at h
  split at h
  · simp_all
  · split at h
    · simp_all
    · split at h <;> simp_all

theorem parse_page_final_date_error {d : Document} {e : ParsePageError}
    (h : parse_page_final_date d = .error e) :
    e = ParsePageError.UnexpectedHtml ∨ e = ParsePageError.DateParseError := by
  unfold parse_page_final_date at h
  split at h
  · simp_all
  · split at h
    · simp_all
    · split at h
      · simp_all
      · split at h
        · simp_all
        · split at h
          · simp_all
          · split at h <;> simp_all

theorem pp_step1_error {d : Document} {e : ParsePageError}
    (h : parse_page_id d = .error e) : parse_page d = .error e := by
  simp [parse_page, h]

theorem pp_step1_home {d : Document}
    (h : parse_page_id d = .ok "page_home_index") :
    parse_page d = .error ParsePageError.NonExistingEvent := by
  simp [parse_page, h]

theorem pp_step2_error {d : Document} {pid : String} {e : ParsePageError}
    (h1 : parse_page_id d = .ok pid) (hpid : pid ≠ "page_home_index")
    (h : parse_canonical_url d = .error e) : parse_page d = .error e := by
  simp [parse_page, h1, hpid, h]

theorem pp_step3_error {d : Document} {pid url : String} {e : ParsePageError}
    (h1 : parse_page_id d = .ok pid) (hpid : pid ≠ "page_home_index")
    (h2 : parse_canonical_url d = .ok url)
    (h : parse_page_title d = .error e) : parse_page d = .error e := by
  simp [parse_page, h1, hpid, h2, h]

theorem pp_step4_error {d : Document} {pid url ttl : String} {e : ParsePageError}
    (h1 : parse_page_id d = .ok pid) (hpid : pid ≠ "page_home_index")
    (h2 : parse_canonical_url d = .ok url) (h3 : parse_page_title d = .ok ttl)
    (h : parse_page_final_date d = .error e) : parse_page d = .error e := by
  simp [parse_page, h1, hpid, h2, h3, h]

theorem pp_step5_error {d : Document} {pid url ttl : String} {fd : Option DateRange}
    {e : ParsePageError}
    (h1 : parse_page_id d = .ok pid) (hpid : pid ≠ "page_home_index")
    (h2 : parse_canonical_url d = .ok url) (h3 : parse_page_title d = .ok ttl)
    (h4 : parse_page_final_date d = .ok fd)
    (h : parse_page_open_registration_link d = .error e) : parse_page d = .error e := by
  simp [parse_page, h1, hpid, h2, h3, h4, h]

theorem pp_all_ok {d : Document} {pid url ttl : String} {fd : Option DateRange}
    {lnk : Option String}
    (h1 : parse_page_id d = .ok pid) (hpid : pid ≠ "page_home_index")
    (h2 : parse_canonical_url d = .ok url) (h3 : parse_page_title d = .ok ttl)
    (h4 : parse_page_final_date d = .ok fd)
    (h5 : parse_page_open_registration_link d = .ok lnk) :
    parse_page d = .ok { canonical_url := url, title := ttl,
                         final_date := fd, open_registration_link := lnk } := by
  simp [parse_page, h1, hpid, h2, h3, h4, h5]

theorem parse_page_id_ok_iff {d : Document} {pid : String} :
    parse_page_id d = .ok pid ↔
      (d.find (Select.Name "html")).head?.bind (fun e => e.attr "id") = some pid := by
  unfold parse_page_id
  cases hr : (d.find (Select.Name "html")).head? with
  | none => simp
  | some root => cases hi : root.attr "id" <;> simp_all

theorem parse_page_ok_inv {d : Document} {ev : Event} (h : parse_page d = .ok ev) :
    ∃ pid, parse_page_id d = .ok pid ∧ pid ≠ "page_home_index" ∧
      parse_canonical_url d = .ok ev.canonical_url ∧
      parse_page_title d = .ok ev.title ∧
      parse_page_final_date d = .ok ev.final_date ∧
      parse_page_open_registration_link d = .ok ev.open_registration_link := by
  unfold parse_page at h
  split at h
  · exact absurd h (by simp)
  next pid h1 =>
    split at h
    · exact absurd h (by simp)
    next hpid =>
      split at h
      · exact absurd h (by simp)
      next url h2 =>
        split at h
        · exact absurd h (by simp)
        next ttl h3 =>
          split at h
          · exact absurd h (by simp)
          next fd h4 =>
            split at h
            · exact absurd h (by simp)
            next lnk h5 =>
              cases h
              exact ⟨pid, h1, hpid, h2, h3, h4, h5⟩

/-! ### Claims -/

/-- Claim C1, counterexample: `docMissingRegAttr` is otherwise well-formed
(root id present and not the placeholder, canonical link present, title
attribute present, no final-summary block) and its article element is
present but lacks the open-registration-link data attribute, yet
`parse_page` returns `Err(UnexpectedHtml)` rather than `Ok` with
`open_registration_link = None`, refuting the claim as stated. -/
theorem c1_counterexample :
    (docMissingRegAttr.find (Select.Name "html")).head?.bind (fun e => e.attr "id")
        = some "page_event_overzicht" ∧
    (docMissingRegAttr.find (Select.And (Select.Name "link")
        (Select.Attr "rel" "canonical"))).head?.bind (fun e => e.attr "href")
        = some exampleUrl ∧
    (docMissingRegAttr.find (Select.Name "article")).head? = some artNoReg ∧
    artNoReg.attr "data-event-title" = some "test" ∧
    artNoReg.attr "data-openregistration-link" = none ∧
    docMissingRegAttr.find (Select.Attr "id" "final_summary") = [] ∧
    parse_page docMissingRegAttr = .error ParsePageError.UnexpectedHtml :=
  ⟨rfl, rfl, rfl, rfl, rfl, rfl, rfl⟩

/-- Claim C1 (amended): for every markup document whose primary content
container (article element) is present and carries the
open-registration-link data attribute with the empty string as its value,
and which is otherwise well-formed (root id present and not the
placeholder, canonical link present, title attribute present, no
final-summary block), `parse_page` returns `Ok` with
`open_registration_link = None`. -/
theorem c1_empty_reg_attr_gives_none (d : Document) (root lk art : Elem)
    (pid url ttl : String)
    (hroot : (d.find (Select.Name "html")).head? = some root)
    (hid : root.attr "id" = some pid)
    (hpid : pid ≠ "page_home_index")
    (hlk : (d.find (Select.And (Select.Name "link")
      (Select.Attr "rel" "canonical"))).head? = some lk)
    (hhref : lk.attr "href" = some url)
    (hart : (d.find (Select.Name "article")).head? = some art)
    (httl : art.attr "data-event-title" = some ttl)
    (hfs : d.find (Select.Attr "id" "final_summary") = [])
    (hreg : art.attr "data-openregistration-link" = some "") :
    parse_page d = .ok { canonical_url := url, title := ttl,
                         final_date := none, open_registration_link := none } := by
  have h1 : parse_page_id d = .ok pid := by
    simp [parse_page_id, hroot, hid]
  have h2 : parse_canonical_url d = .ok url := by
    simp [parse_canonical_url, hlk, hhref]
  have h3 : parse_page_title d = .ok ttl := by
    simp [parse_page_title, hart, httl]
  have h4 : parse_page_final_date d = .ok none := by
    simp [parse_page_final_date, hfs]
  have h5 : parse_page_open_registration_link d = .ok none := by
    have hemp : ("" : String).isEmpty = true := rfl
    simp [parse_page_open_registration_link, hart, hreg, hemp]
  exact pp_all_ok h1 hpid h2 h3 h4 h5

/-- Witness for the amended claim C1 at `docEmptyRegAttr`. -/
theorem c1_witness :
    parse_page docEmptyRegAttr
      = .ok { canonical_url := exampleUrl, title := "test",
              final_date := none, open_registration_link := none } :=
  c1_empty_reg_attr_gives_none docEmptyRegAttr _ _ _ _ _ _
    rfl rfl (by decide) rfl rfl rfl rfl rfl rfl

/-- Claim C2: for every markup document on which the page-identity,
canonical-URL, title and final-date steps all succeed (with a
non-placeholder id), if the first article element is missing or lacks the
open-registration-link data attribute, `parse_page` fails with
`UnexpectedHtml`. -/
theorem c2_missing_reg_attr_unexpected (d : Document) (pid url ttl : String)
    (fd : Option DateRange)
    (h1 : parse_page_id d = .ok pid) (hpid : pid ≠ "page_home_index")
    (h2 : parse_canonical_url d = .ok url) (h3 : parse_page_title d = .ok ttl)
    (h4 : parse_page_final_date d = .ok fd)
    (hmiss : (d.find (Select.Name "article")).head? = none ∨
      ∃ art, (d.find (Select.Name "article")).head? = some art ∧
        art.attr "data-openregistration-link" = none) :
    parse_page d = .error ParsePageError.UnexpectedHtml := by
  have h5 : parse_page_open_registration_link d = .error ParsePageError.UnexpectedHtml := by
    rcases hmiss with h | ⟨art, ha, hb⟩
    · simp [parse_page_open_registration_link, h]
    · simp [parse_page_open_registration_link, ha, hb]
  exact pp_step5_error h1 hpid h2 h3 h4 h5

/-- Witness for claim C2 at `docMissingRegAttr`. -/
theorem c2_witness :
    parse_page docMissingRegAttr = .error ParsePageError.UnexpectedHtml :=
  c2_missing_reg_attr_unexpected docMissingRegAttr "page_event_overzicht"
    exampleUrl "test" none rfl (by decide) rfl rfl rfl
    (Or.inr ⟨artNoReg, rfl, rfl⟩)

/-- Claim C3: for every markup document, `parse_page` returns
`Err(NonExistingEvent)` if and only if the first html element exists,
carries an id attribute, and that attribute's value is
`"page_home_index"`; any other id never yields `NonExistingEvent`, and a
placeholder page yields it regardless of what other elements are
missing. -/
theorem c3_nonexisting_iff (d : Document) :
    parse_page d = .error ParsePageError.NonExistingEvent ↔
      (d.find (Select.Name "html")).head?.bind (fun e => e.attr "id")
        = some "page_home_index" := by
  constructor
  · intro h
    cases h1 : parse_page_id d with
    | error e =>
      rw [pp_step1_error h1, parse_page_id_error h1] at h
      simp at h
    | ok pid =>
      by_cases hp : pid = "page_home_index"
      · subst hp
        exact parse_page_id_ok_iff.mp h1
      · exfalso
        cases h2 : parse_canonical_url d with
        | error e =>
          rw [pp_step2_error h1 hp h2, parse_canonical_url_error h2] at h
          simp at h
        | ok url =>
          cases h3 : parse_page_title d with
          | error e =>
            rw [pp_step3_error h1 hp h2 h3, parse_page_title_error h3] at h
            simp at h
          | ok ttl =>
            cases h4 : parse_page_final_date d with
            | error e =>
              rw [pp_step4_error h1 hp h2 h3 h4] at h
              rcases parse_page_final_date_error h4 with he | he <;> rw [he] at h <;>
                simp at h
            | ok fd =>
              cases h5 : parse_page_open_registration_link d with
              | error e =>
                rw [pp_step5_error h1 hp h2 h3 h4 h5,
                  parse_page_open_registration_link_error h5] at h
                simp at h
              | ok lnk =>
                rw [pp_all_ok h1 hp h2 h3 h4 h5] at h
                simp at h
  · intro h
    rcases Option.bind_eq_some.mp h with ⟨root, hr, hi⟩
    have h1 : parse_page_id d = .ok "page_home_index" := by
      simp [parse_page_id, hr, hi]
    exact pp_step1_home h1

/-- Witness for claim C3 at `docHome`: the placeholder page yields
`NonExistingEvent` even though every other expected element is missing. -/
theorem c3_witness :
    parse_page docHome = .error ParsePageError.NonExistingEvent :=
  (c3_nonexisting_iff docHome).mpr rfl

/-- Claim C4: for every markup document on which `parse_page` returns
`Ok(event)`, if the open-registration-link attribute value on the first
article element is the empty string then
`event.open_registration_link = None`, and if it is non-empty then it is
`Some` of exactly that string. -/
theorem c4_registration_link_normalization (d : Document) (ev : Event)
    (art : Elem) (v : String)
    (h : parse_page d = .ok ev)
    (hart : (d.find (Select.Name "article")).head? = some art)
    (hv : art.attr "data-openregistration-link" = some v) :
    ev.open_registration_link = if v = "" then none else some v := by
  obtain ⟨pid, -, -, -, -, -, h5⟩ := parse_page_ok_inv h
  unfold parse_page_open_registration_link at h5
  rw [hart] at h5
  simp only [hv] at h5
  by_cases hv0 : v = ""
  · subst hv0
    have hemp : ("" : String).isEmpty = true := rfl
    rw [hemp] at h5
    simp at h5
    simp [h5]
  · have hemp : v.isEmpty = false := by
      cases he : v.isEmpty
      · rfl
      · exact absurd ((String.isEmpty_iff v).mp he) hv0
    rw [hemp] at h5
    simp at h5
    simp [hv0, h5]

/-- Witness for claim C4 at `docEmptyRegAttr` (empty value): the extracted
event has `open_registration_link = None`. -/
theorem c4_witness :
    ({ canonical_url := exampleUrl, title := "test", final_date := none,
       open_registration_link := none } : Event).open_registration_link
      = if "" = "" then none else some "" :=
  c4_registration_link_normalization docEmptyRegAttr _ _ "" rfl rfl rfl

/-- Claim C5: for every well-formed event page (non-placeholder id,
canonical link, title and registration-link attribute all present) that
contains no element with the `final_summary` identifier, `parse_page`
succeeds and the returned event has `final_date = None`. -/
theorem c5_no_final_summary_ok_none (d : Document) (root lk art : Elem)
    (pid url ttl lnk : String)
    (hroot : (d.find (Select.Name "html")).head? = some root)
    (hid : root.attr "id" = some pid)
    (hpid : pid ≠ "page_home_index")
    (hlk : (d.find (Select.And (Select.Name "link")
      (Select.Attr "rel" "canonical"))).head? = some lk)
    (hhref : lk.attr "href" = some url)
    (hart : (d.find (Select.Name "article")).head? = some art)
    (httl : art.attr "data-event-title" = some ttl)
    (hreg : art.attr "data-openregistration-link" = some lnk)
    (hfs : d.find (Select.Attr "id" "final_summary") = []) :
    ∃ ev : Event, parse_page d = .ok ev ∧ ev.final_date = none := by
  have h1 : parse_page_id d = .ok pid := by
    simp [parse_page_id, hroot, hid]
  have h2 : parse_canonical_url d = .ok url := by
    simp [parse_canonical_url, hlk, hhref]
  have h3 : parse_page_title d = .ok ttl := by
    simp [parse_page_title, hart, httl]
  have h4 : parse_page_final_date d = .ok none := by
    simp [parse_page_final_date, hfs]
  have h5 : parse_page_open_registration_link d
      = .ok (if lnk.isEmpty then none else some lnk) := by
    unfold parse_page_open_registration_link
    rw [hart]
    simp only [hreg]
    cases lnk.isEmpty <;> simp
  exact ⟨_, pp_all_ok h1 hpid h2 h3 h4 h5, rfl⟩

/-- Witness for claim C5 at `docNoFinal`. -/
theorem c5_witness :
    ∃ ev : Event, parse_page docNoFinal = .ok ev ∧ ev.final_date = none :=
  c5_no_final_summary_ok_none docNoFinal _ _ _ _ _ _ _
    rfl rfl (by decide) rfl rfl rfl rfl rfl rfl

/-- Claim C6, counterexample: `docNoHtml` has a final-summary section whose
date-class element carries both attributes and an unparseable start date,
yet `parse_page` fails with `UnexpectedHtml` (the page-identity step fails
first), not `DateParseError`, refuting the claim as stated over every
markup document. -/
theorem c6_counterexample :
    (docNoHtml.find (Select.Attr "id" "final_summary")).head?
        = some (finalSummaryAt "bad" "alsobad") ∧
    ((finalSummaryAt "bad" "alsobad").findDesc (Select.Class "date")).head?
        = some (dateElem "bad" "alsobad") ∧
    (dateElem "bad" "alsobad").attr "data-startdate" = some "bad" ∧
    (dateElem "bad" "alsobad").attr "data-enddate" = some "alsobad" ∧
    parse_from_rfc3339 "bad" = none ∧
    parse_page docNoHtml = .error ParsePageError.UnexpectedHtml ∧
    ParsePageError.UnexpectedHtml ≠ ParsePageError.DateParseError :=
  ⟨rfl, rfl, rfl, rfl, rfl, rfl, by decide⟩

/-- Claim C6 (amended): for every markup document whose page-identity,
canonical-URL and title lookups succeed structurally (non-placeholder id),
where the final-summary section and its date-class element are present
with both start-date and end-date attributes, if either attribute's value
is not parseable as strict RFC 3339 then `parse_page` fails with
`DateParseError` (and not with `UnexpectedHtml`). -/
theorem c6_bad_date_gives_dateparseerror (d : Document) (root lk art fs fd : Elem)
    (pid url ttl st en : String)
    (hroot : (d.find (Select.Name "html")).head? = some root)
    (hid : root.attr "id" = some pid)
    (hpid : pid ≠ "page_home_index")
    (hlk : (d.find (Select.And (Select.Name "link")
      (Select.Attr "rel" "canonical"))).head? = some lk)
    (hhref : lk.attr "href" = some url)
    (hart : (d.find (Select.Name "article")).head? = some art)
    (httl : art.attr "data-event-title" = some ttl)
    (hfs : (d.find (Select.Attr "id" "final_summary")).head? = some fs)
    (hfd : (fs.findDesc (Select.Class "date")).head? = some fd)
    (hst : fd.attr "data-startdate" = some st)
    (hen : fd.attr "data-enddate" = some en)
    (hbad : parse_from_rfc3339 st = none ∨ parse_from_rfc3339 en = none) :
    parse_page d = .error ParsePageError.DateParseError := by
  have h1 : parse_page_id d = .ok pid := by
    simp [parse_page_id, hroot, hid]
  have h2 : parse_canonical_url d = .ok url := by
    simp [parse_canonical_url, hlk, hhref]
  have h3 : parse_page_title d = .ok ttl := by
    simp [parse_page_title, hart, httl]
  have h4 : parse_page_final_date d = .error ParsePageError.DateParseError := by
    cases hs : parse_from_rfc3339 st with
    | none => simp [parse_page_final_date, hfs, hfd, hst, hen, hs]
    | some s =>
      rcases hbad with hb | hb
      · rw [hs] at hb; cases hb
      · simp [parse_page_final_date, hfs, hfd, hst, hen, hs, hb]
  exact pp_step4_error h1 hpid h2 h3 h4

/-- Witness for the amended claim C6 at `docBadDate`. -/
theorem c6_witness :
    parse_page docBadDate = .error ParsePageError.DateParseError :=
  c6_bad_date_gives_dateparseerror docBadDate _ _ _ _ _ _ _ _ "03-06-2022" "2022-06-03T21:00:00Z"
    rfl rfl (by decide) rfl rfl rfl rfl rfl rfl rfl rfl (Or.inl rfl)

/-- Claim C7: for every well-formed page whose final-summary date
attributes are valid RFC 3339 strings (possibly with non-UTC offsets),
`parse_page` returns a `DateRange` whose start and end are expressed in
UTC and denote the same absolute instants as the source attribute
values. -/
theorem c7_final_date_utc_instants (d : Document) (root lk art fs fd : Elem)
    (pid url ttl lnk st en : String) (ds de : DateTimeFixed)
    (hroot : (d.find (Select.Name "html")).head? = some root)
    (hid : root.attr "id" = some pid)
    (hpid : pid ≠ "page_home_index")
    (hlk : (d.find (Select.And (Select.Name "link")
      (Select.Attr "rel" "canonical"))).head? = some lk)
    (hhref : lk.attr "href" = some url)
    (hart : (d.find (Select.Name "article")).head? = some art)
    (httl : art.attr "data-event-title" = some ttl)
    (hreg : art.attr "data-openregistration-link" = some lnk)
    (hfs : (d.find (Select.Attr "id" "final_summary")).head? = some fs)
    (hfd : (fs.findDesc (Select.Class "date")).head? = some fd)
    (hst : fd.attr "data-startdate" = some st)
    (hen : fd.attr "data-enddate" = some en)
    (hs : parse_from_rfc3339 st = some ds)
    (he : parse_from_rfc3339 en = some de) :
    ∃ ev : Event, parse_page d = .ok ev ∧
      ev.final_date = some { start := with_timezone_utc ds,
                             end_ := with_timezone_utc de } ∧
      (with_timezone_utc ds).instant = ds.instant ∧
      (with_timezone_utc de).instant = de.instant := by
  have h1 : parse_page_id d = .ok pid := by
    simp [parse_page_id, hroot, hid]
  have h2 : parse_canonical_url d = .ok url := by
    simp [parse_canonical_url, hlk, hhref]
  have h3 : parse_page_title d = .ok ttl := by
    simp [parse_page_title, hart, httl]
  have h4 : parse_page_final_date d
      = .ok (some { start := with_timezone_utc ds, end_ := with_timezone_utc de }) := by
    simp [parse_page_final_date, hfs, hfd, hst, hen, hs, he]
  have h5 : parse_page_open_registration_link d
      = .ok (if lnk.isEmpty then none else some lnk) := by
    unfold parse_page_open_registration_link
    rw [hart]
    simp only [hreg]
    cases lnk.isEmpty <;> simp
  exact ⟨_, pp_all_ok h1 hpid h2 h3 h4 h5, rfl, rfl, rfl⟩

/-- Witness for claim C7 at `docFinal`: the +02:00 start is converted to
the UTC instant 1654275600 (2022-06-03 17:00:00 UTC). -/
theorem c7_witness :
    ∃ ev : Event, parse_page docFinal = .ok ev ∧
      ev.final_date = some { start := with_timezone_utc ⟨1654275600, 0, 7200⟩,
                             end_ := with_timezone_utc ⟨1654290000, 0, 0⟩ } ∧
      (with_timezone_utc ⟨1654275600, 0, 7200⟩).instant
        = DateTimeFixed.instant ⟨1654275600, 0, 7200⟩ ∧
      (with_timezone_utc ⟨1654290000, 0, 0⟩).instant
        = DateTimeFixed.instant ⟨1654290000, 0, 0⟩ :=
  c7_final_date_utc_instants docFinal _ _ _ _ _ _ _ _ _
    "2022-06-03T19:00:00+02:00" "2022-06-03T21:00:00Z"
    ⟨1654275600, 0, 7200⟩ ⟨1654290000, 0, 0⟩
    rfl rfl (by decide) rfl rfl rfl rfl rfl rfl rfl rfl rfl rfl rfl

/-- Claim C8: the five lookups run in the fixed order page-identity,
canonical URL, title, final date, registration link; the first failing
step determines the returned error, an `Ok` arises exactly when every
step succeeds, and (by the `Except` result) no partial `Event` is ever
produced alongside an error. -/
theorem c8_step_order_short_circuit (d : Document) :
    (∀ e : ParsePageError, parse_page_id d = .error e → parse_page d = .error e) ∧
    (parse_page_id d = .ok "page_home_index" →
      parse_page d = .error ParsePageError.NonExistingEvent) ∧
    (∀ (pid : String) (e : ParsePageError), parse_page_id d = .ok pid →
      pid ≠ "page_home_index" → parse_canonical_url d = .error e →
      parse_page d = .error e) ∧
    (∀ (pid url : String) (e : ParsePageError), parse_page_id d = .ok pid →
      pid ≠ "page_home_index" → parse_canonical_url d = .ok url →
      parse_page_title d = .error e → parse_page d = .error e) ∧
    (∀ (pid url ttl : String) (e : ParsePageError), parse_page_id d = .ok pid →
      pid ≠ "page_home_index" → parse_canonical_url d = .ok url →
      parse_page_title d = .ok ttl → parse_page_final_date d = .error e →
      parse_page d = .error e) ∧
    (∀ (pid url ttl : String) (fd : Option DateRange) (e : ParsePageError),
      parse_page_id d = .ok pid → pid ≠ "page_home_index" →
      parse_canonical_url d = .ok url → parse_page_title d = .ok ttl →
      parse_page_final_date d = .ok fd →
      parse_page_open_registration_link d = .error e → parse_page d = .error e) ∧
    (∀ (pid url ttl : String) (fd : Option DateRange) (lnk : Option String),
      parse_page_id d = .ok pid → pid ≠ "page_home_index" →
      parse_canonical_url d = .ok url → parse_page_title d = .ok ttl →
      parse_page_final_date d = .ok fd →
      parse_page_open_registration_link d = .ok lnk →
      parse_page d = .ok { canonical_url := url, title := ttl,
                           final_date := fd, open_registration_link := lnk }) ∧
    (∀ ev : Event, parse_page d = .ok ev →
      ∃ pid, parse_page_id d = .ok pid ∧ pid ≠ "page_home_index" ∧
        parse_canonical_url d = .ok ev.canonical_url ∧
        parse_page_title d = .ok ev.title ∧
        parse_page_final_date d = .ok ev.final_date ∧
        parse_page_open_registration_link d = .ok ev.open_registration_link) :=
  ⟨fun _ h => pp_step1_error h,
   fun h => pp_step1_home h,
   fun _ _ h1 hp h => pp_step2_error h1 hp h,
   fun _ _ _ h1 hp h2 h => pp_step3_error h1 hp h2 h,
   fun _ _ _ _ h1 hp h2 h3 h => pp_step4_error h1 hp h2 h3 h,
   fun _ _ _ _ _ h1 hp h2 h3 h4 h => pp_step5_error h1 hp h2 h3 h4 h,
   fun _ _ _ _ _ h1 hp h2 h3 h4 h5 => pp_all_ok h1 hp h2 h3 h4 h5,
   fun _ h => parse_page_ok_inv h⟩

/-- Witness for claim C8 at `docFinal`, through the all-steps-succeed
conjunct. -/
theorem c8_witness :
    parse_page docFinal
      = .ok { canonical_url := exampleUrl, title := "test",
              final_date := some { start := ⟨1654275600, 0⟩, end_ := ⟨1654290000, 0⟩ },
              open_registration_link := some "https://datumprikker.nl/r1" } :=
  (c8_step_order_short_circuit docFinal).2.2.2.2.2.2.1
    "page_event_overzicht" exampleUrl "test" _ _ rfl (by decide) rfl rfl rfl rfl

/-- Claim C9: no ordering between the two timestamps of a `DateRange` is
enforced: on `docRev`, whose end-date attribute denotes an instant
strictly earlier than its start-date attribute, extraction still succeeds
and both source values are passed through unchanged. -/
theorem c9_no_ordering_constraint :
    parse_from_rfc3339 "2022-06-03T21:00:00Z" = some ⟨1654290000, 0, 0⟩ ∧
    parse_from_rfc3339 "2022-06-03T17:00:00Z" = some ⟨1654275600, 0, 0⟩ ∧
    parse_page docRev
      = .ok { canonical_url := exampleUrl, title := "test",
              final_date := some { start := with_timezone_utc ⟨1654290000, 0, 0⟩,
                                   end_ := with_timezone_utc ⟨1654275600, 0, 0⟩ },
              open_registration_link := some "https://datumprikker.nl/r1" } ∧
    (with_timezone_utc ⟨1654275600, 0, 0⟩).secs
      < (with_timezone_utc ⟨1654290000, 0, 0⟩).secs :=
  ⟨rfl, rfl, rfl, by decide⟩

/-- Claim C10: when a query matches several elements, the extractor uses
the first match in document order and silently ignores the rest: the
canonical URL, the title, the registration link and the final-summary
date element are all read off the first matching element, whatever
follows it. -/
theorem c10_first_match_wins (d : Document) :
    (∀ (e : Elem) (rest : List Elem),
      d.find (Select.And (Select.Name "link") (Select.Attr "rel" "canonical"))
          = e :: rest →
      parse_canonical_url d =
        match e.attr "href" with
        | none => .error ParsePageError.UnexpectedHtml
        | some href => .ok href) ∧
    (∀ (e : Elem) (rest : List Elem),
      d.find (Select.Name "article") = e :: rest →
      (parse_page_title d =
        match e.attr "data-event-title" with
        | none => .error ParsePageError.UnexpectedHtml
        | some t => .ok t) ∧
      (parse_page_open_registration_link d =
        match e.attr "data-openregistration-link" with
        | none => .error ParsePageError.UnexpectedHtml
        | some l => if l.isEmpty then .ok none else .ok (some l))) ∧
    (∀ (fs : Elem) (fsrest : List Elem) (e : Elem) (rest : List Elem),
      d.find (Select.Attr "id" "final_summary") = fs :: fsrest →
      fs.findDesc (Select.Class "date") = e :: rest →
      parse_page_final_date d =
        match e.attr "data-startdate" with
        | none => .error ParsePageError.UnexpectedHtml
        | some st =>
          match e.attr "data-enddate" with
          | none => .error ParsePageError.UnexpectedHtml
          | some en =>
            match parse_from_rfc3339 st with
            | none => .error ParsePageError.DateParseError
            | some s =>
              match parse_from_rfc3339 en with
              | none => .error ParsePageError.DateParseError
              | some e2 =>
                .ok (some { start := with_timezone_utc s,
                            end_ := with_timezone_utc e2 })) := by
  refine ⟨?_, ?_, ?_⟩
  · intro e rest h
    cases ha : e.attr "href" <;> simp [parse_canonical_url, h, ha]
  · intro e rest h
    constructor
    · cases ha : e.attr "data-event-title" <;> simp [parse_page_title, h, ha]
    · cases ha : e.attr "data-openregistration-link" <;>
        simp [parse_page_open_registration_link, h, ha]
  · intro fs fsrest e rest hfs hfd
    cases ha : e.attr "data-startdate" with
    | none => simp [parse_page_final_date, hfs, hfd, ha]
    | some st =>
      cases hb : e.attr "data-enddate" with
      | none => simp [parse_page_final_date, hfs, hfd, ha, hb]
      | some en =>
        cases hc : parse_from_rfc3339 st with
        | none => simp [parse_page_final_date, hfs, hfd, ha, hb, hc]
        | some s =>
          cases hd : parse_from_rfc3339 en with
          | none => simp [parse_page_final_date, hfs, hfd, ha, hb, hc, hd]
          | some e2 => simp [parse_page_final_date, hfs, hfd, ha, hb, hc, hd]

/-- Witness for claim C10 at `docDup`, which contains two canonical
links, two articles and two date-class elements: every value comes from
the first match and the duplicates cause no error. -/
theorem c10_witness :
    parse_canonical_url docDup = .ok "http://first" ∧
    parse_page_title docDup = .ok "t1" ∧
    parse_page_open_registration_link docDup = .ok none ∧
    parse_page_final_date docDup
      = .ok (some { start := ⟨1654275600, 0⟩, end_ := ⟨1654290000, 0⟩ }) :=
  ⟨(c10_first_match_wins docDup).1 _ _ rfl,
   ((c10_first_match_wins docDup).2.1 _ _ rfl).1,
   ((c10_first_match_wins docDup).2.1 _ _ rfl).2,
   (c10_first_match_wins docDup).2.2 _ _ _ _ rfl rfl⟩

end Datumprikker
